import Mathlib

/-!
Verification of the Mainline DHT transport
(`magneticod/magneticod/transports/mainline.py`).

The transport is an asyncio `DatagramProtocol` with

* a send queue (`collections.deque` of `MessageQueueEntry`),
* two `asyncio.Event`s: `_write_allowed` and `_queue_nonempty`,
* a background drain coroutine `_send_messages`,
* inbound handling in `datagram_received`,
* lifecycle callbacks (`connection_made`, `pause_writing`, `resume_writing`,
  `connection_lost`, `error_received`).

The scheduling model of the source is single-threaded cooperative
concurrency: callbacks and `send_message` run to completion without
suspending, and the drain coroutine suspends only at its
`await asyncio.wait(...)` point.  We therefore model the transport as a
state machine: each atomic operation (a `send_message` call, one iteration
of the drain loop, a socket callback) is a step; the monotonic clock
reading at which an operation happens is a rational-number parameter of
the step.
-/

namespace Mainline

/-- A remote endpoint, `Address = typing.Tuple[str, int]` in the source:
a (host, port) pair. -/
structure Address where
  host : String
  port : Nat
deriving DecidableEq, Repr

/-- Modelled from the spec: the codec collaborator's decoded message values
(`codec.Message`); `codec.py` is not among the shown sources.  The transport
itself only tests `isinstance(message, dict)` on a decoded value, so the
only structural feature the model needs is which top-level shape a value
has; a payload field keeps distinct values distinguishable. -/
inductive BValue where
  /-- a decoded integer -/
  | int (n : Int)
  /-- a decoded byte string -/
  | bytes (s : String)
  /-- a decoded list (its elements do not matter to the transport) -/
  | list (payload : Nat)
  /-- a decoded dictionary — the protocol's top-level message envelope -/
  | dict (payload : Nat)
deriving DecidableEq, Repr

/-- `isinstance(message, dict)` on a decoded value. -/
def BValue.isDict : BValue → Bool
  | .dict _ => true
  | _ => false

/-- `MessageQueueEntry = NamedTuple(queued_on : int, message, address)`.
`queued_on` is an `int`: `send_message` stores `int(time.monotonic())`. -/
structure MessageQueueEntry where
  queued_on : Int
  message : BValue
  address : Address
deriving DecidableEq, Repr

/-- Python's `int()` applied to a (real-valued) clock reading: truncation
toward zero, which is the floor for the non-negative readings a monotonic
clock yields. -/
def pyInt (q : ℚ) : Int :=
  if 0 ≤ q then ⌊q⌋ else ⌈q⌉

/-- The mutable state of one `Transport` instance, plus the observable
history of the socket.

`message_queue` models `self._message_queue : Deque[MessageQueueEntry]`.
The deque is written only at its right end (`append` in `send_message`) and
read only at its right end (`pop` in `_send_messages`), so we keep the
deque's RIGHT end at the HEAD of the list: the head is the most recently
appended entry, and the enqueue order of the pending entries is the
reverse of the list order.

`sent` records, oldest first, the `(message, address)` pairs passed to
`self._datagram_transport.sendto(codec.encode(message), address)`; the
byte string actually written is `encode` applied to the recorded message,
where `encode` is the pure codec collaborator.

`terminated` is true once the `_send_messages` coroutine has executed its
`return` statement; after that no further iterations of the drain loop
run. -/
structure TransportState where
  /-- `self._write_allowed : asyncio.Event` -/
  write_allowed : Bool
  /-- `self._queue_nonempty : asyncio.Event` -/
  queue_nonempty : Bool
  /-- `self._message_queue`, newest entry first (see above) -/
  message_queue : List MessageQueueEntry
  /-- messages handed to `sendto`, oldest first -/
  sent : List (BValue × Address)
  /-- whether `_send_messages` has returned -/
  terminated : Bool
deriving DecidableEq, Repr

/-- The state right after `__init__`: both events unset, empty deque, the
drain task started (and about to block on its `await`). -/
def initState : TransportState :=
  { write_allowed := false
    queue_nonempty := false
    message_queue := []
    sent := []
    terminated := false }

/-- `send_message(message, address)` called when the monotonic clock reads
`now`:

```
self._message_queue.append(MessageQueueEntry(int(time.monotonic()), message, address))
if not self._queue_nonempty.is_set():
    self._queue_nonempty.set()
```

`deque.append` adds at the right end — the head of our list.  The guarded
`set()` leaves the event set in either case. -/
def send_message (s : TransportState) (now : ℚ) (message : BValue)
    (address : Address) : TransportState :=
  { s with
    message_queue := ⟨pyInt now, message, address⟩ :: s.message_queue
    queue_nonempty := true }

/-- `connection_made`: stores the datagram transport handle and sets
`_write_allowed`. -/
def connection_made (s : TransportState) : TransportState :=
  { s with write_allowed := true }

/-- `pause_writing`: `self._write_allowed.clear()`. -/
def pause_writing (s : TransportState) : TransportState :=
  { s with write_allowed := false }

/-- `resume_writing`: `self._write_allowed.set()`. -/
def resume_writing (s : TransportState) : TransportState :=
  { s with write_allowed := true }

/-- One iteration of the drain loop `_send_messages`, executed when the
monotonic clock reads `now`:

```
while True:
    await asyncio.wait([self._write_allowed.wait(), self._queue_nonempty.wait()])
    try:
        queued_on, message, address = self._message_queue.pop()
    except IndexError:
        self._queue_nonempty.clear()
        continue
    if time.monotonic() - queued_on > 60:
        return
    self._datagram_transport.sendto(codec.encode(message), address)
```

`asyncio.wait` is called with its default `return_when=ALL_COMPLETED`, so
the `await` completes only once BOTH `_write_allowed.wait()` and
`_queue_nonempty.wait()` have completed, i.e. both events are set; while
either event is unset the coroutine stays suspended and the iteration is a
no-op.  Once the coroutine has `return`ed (`terminated`), no iteration
ever runs again.

`deque.pop()` removes from the RIGHT end of the deque — the head of our
list, i.e. the MOST recently appended entry. -/
def drain_step (s : TransportState) (now : ℚ) : TransportState :=
  if s.terminated then s
  else if s.write_allowed && s.queue_nonempty then
    match s.message_queue with
    | [] => { s with queue_nonempty := false }
    | e :: rest =>
      if 60 < now - (e.queued_on : ℚ) then
        { s with message_queue := rest, terminated := true }
      else
        { s with
          message_queue := rest
          sent := s.sent ++ [(e.message, e.address)] }
  else s

/-- The atomic operations of the transport, each tagged with the clock
reading at which it runs where the source reads the clock. -/
inductive Action where
  /-- a `send_message(message, address)` call at clock reading `now` -/
  | send (now : ℚ) (message : BValue) (address : Address)
  /-- one iteration of the drain loop, popping at clock reading `now` -/
  | drain (now : ℚ)
  /-- the `connection_made` callback -/
  | connMade
  /-- the `pause_writing` callback -/
  | pauseWriting
  /-- the `resume_writing` callback -/
  | resumeWriting
deriving DecidableEq, Repr

/-- Effect of one atomic operation on the transport state. -/
def step (s : TransportState) : Action → TransportState
  | .send now message address => send_message s now message address
  | .drain now => drain_step s now
  | .connMade => connection_made s
  | .pauseWriting => pause_writing s
  | .resumeWriting => resume_writing s

/-- Run a sequence of atomic operations from a state. -/
def run (s : TransportState) : List Action → TransportState
  | [] => s
  | a :: acts => run (step s a) acts

/-- `datagram_received(data, address)`:

```
if address[1] == 0:
    return
try:
    message = codec.decode(data)
except codec.DecodeError:
    return
if not isinstance(message, dict):
    return
self.on_message(message, address)
```

The codec is a collaborator (`codec.py` is not among the shown sources),
so `decode` is a parameter; per the spec's collaborator contract,
`decode(bytes)` either yields a message or fails with a `DecodeError`
(the `.error` case).  The result is what gets forwarded to the message
handler `on_message`: `none` means the handler is not invoked and the
datagram is dropped silently; the function is total, so no exception
escapes. -/
def datagram_received (decode : List Nat → Except Unit BValue)
    (data : List Nat) (address : Address) : Option (BValue × Address) :=
  if address.port = 0 then none
  else
    match decode data with
    | .error _ => none
    | .ok message => if message.isDict then some (message, address) else none

/-- A record emitted by the `logging` module: severity level and message.
Python's `logging.fatal` logs at level `CRITICAL = 50`, the highest
standard severity. -/
structure LogRecord where
  level : Nat
  message : String
deriving DecidableEq, Repr

/-- Python's `logging.CRITICAL` (= `FATAL`), the highest standard
severity level. -/
def CRITICAL : Nat := 50

/-- `connection_lost(exc)`:

```
if exc:
    logging.fatal("Mainline DHT lost connection! (See the following log entry for the exception.)", exc_info=exc)
else:
    logging.fatal("Mainline DHT lost connection!")
sys.exit(1)
```

Result: the log record emitted and the process exit status that
`sys.exit(1)` raises. -/
def connection_lost (exc : Option String) : LogRecord × Nat :=
  match exc with
  | some _ =>
    (⟨CRITICAL,
      "Mainline DHT lost connection! (See the following log entry for the exception.)"⟩,
     1)
  | none => (⟨CRITICAL, "Mainline DHT lost connection!"⟩, 1)

/-!
## General lemmas about the transport state machine
-/

/-- Running an appended list of operations runs the two parts in order. -/
theorem run_append (s : TransportState) (l₁ l₂ : List Action) :
    run s (l₁ ++ l₂) = run (run s l₁) l₂ := by
  induction l₁ generalizing s with
  | nil => rfl
  | cons a rest ih => simp [run, ih]

/-- While the write-readiness gate is cleared and no operation sets it
(`connection_made` / `resume_writing` are the only two that do), the gate
stays cleared, nothing is handed to the socket, and the drain loop's
termination flag does not change: the drain iterations are no-ops because
`_write_allowed.wait()` cannot complete. -/
theorem noWakeSentFrozen (s : TransportState) (acts : List Action)
    (hw : s.write_allowed = false)
    (hacts : ∀ a ∈ acts, a ≠ Action.connMade ∧ a ≠ Action.resumeWriting) :
    (run s acts).write_allowed = false ∧ (run s acts).sent = s.sent ∧
      (run s acts).terminated = s.terminated := by
  induction acts generalizing s with
  | nil => exact ⟨hw, rfl, rfl⟩
  | cons a rest ih =>
    have ha := hacts a (List.mem_cons_self a rest)
    have hstep : (step s a).write_allowed = false ∧ (step s a).sent = s.sent ∧
        (step s a).terminated = s.terminated := by
      cases a with
      | send now m addr => exact ⟨hw, rfl, rfl⟩
      | drain now =>
        have : step s (Action.drain now) = s := by
          simp [step, drain_step, hw]
        rw [this]; exact ⟨hw, rfl, rfl⟩
      | connMade => exact absurd rfl ha.1
      | pauseWriting => exact ⟨rfl, rfl, rfl⟩
      | resumeWriting => exact absurd rfl ha.2
    have hrest := ih (step s a) hstep.1
      (fun b hb => hacts b (List.mem_cons_of_mem a hb))
    exact ⟨hrest.1, by rw [run, hrest.2.1, hstep.2.1],
      by rw [run, hrest.2.2, hstep.2.2]⟩

/-- Once the `_send_messages` coroutine has returned, it stays returned
and nothing is ever handed to the socket again: `sendto` is only called
from the drain loop, and no operation restarts the loop. -/
theorem terminatedFrozen (s : TransportState) (acts : List Action)
    (hterm : s.terminated = true) :
    (run s acts).sent = s.sent ∧ (run s acts).terminated = true := by
  induction acts generalizing s with
  | nil => exact ⟨rfl, hterm⟩
  | cons a rest ih =>
    have hstep : (step s a).sent = s.sent ∧ (step s a).terminated = true := by
      cases a with
      | send now m addr => exact ⟨rfl, hterm⟩
      | drain now =>
        have : step s (Action.drain now) = s := by
          simp [step, drain_step, hterm]
        rw [this]; exact ⟨rfl, hterm⟩
      | connMade => exact ⟨rfl, hterm⟩
      | pauseWriting => exact ⟨rfl, hterm⟩
      | resumeWriting => exact ⟨rfl, hterm⟩
    have hrest := ih (step s a) hstep.2
    exact ⟨by rw [run, hrest.1, hstep.1], by rw [run]; exact hrest.2⟩

/-- Preservation of the queue-activity invariant by one atomic operation:
if the signal is set whenever the deque is non-empty, that stays true after
the operation.  `send_message` sets the signal as it appends; the drain
loop clears it only after observing the deque empty. -/
theorem queueInvStep (s : TransportState) (a : Action)
    (h : s.message_queue ≠ [] → s.queue_nonempty = true) :
    (step s a).message_queue ≠ [] → (step s a).queue_nonempty = true := by
  cases a with
  | send now m addr => intro _; rfl
  | drain now =>
    by_cases hterm : s.terminated
    · have : step s (Action.drain now) = s := by simp [step, drain_step, hterm]
      rw [this]; exact h
    · by_cases hguard : s.write_allowed = true ∧ s.queue_nonempty = true
      · rcases hqueue : s.message_queue with _ | ⟨e, rest⟩
        · have : step s (Action.drain now)
              = { s with queue_nonempty := false } := by
            simp [step, drain_step, hterm, hguard.1, hguard.2, hqueue]
          rw [this]; intro hne; exact absurd hqueue hne
        · intro _
          by_cases hstale : 60 < now - (e.queued_on : ℚ)
          · have : step s (Action.drain now) = { s with message_queue := rest, terminated := true } := by
              simp [step, drain_step, hterm, hguard.1, hguard.2, hqueue, hstale]
            rw [this]; exact hguard.2
          · have : step s (Action.drain now) = { s with message_queue := rest, sent := s.sent ++ [(e.message, e.address)] } := by
              simp [step, drain_step, hterm, hguard.1, hguard.2, hqueue, hstale]
            rw [this]; exact hguard.2
      · have hguard' : (s.write_allowed && s.queue_nonempty) = false := by
          rcases Bool.eq_false_or_eq_true s.write_allowed with hw | hw <;>
            rcases Bool.eq_false_or_eq_true s.queue_nonempty with hq | hq <;>
            simp_all
        have : step s (Action.drain now) = s := by
          simp [step, drain_step, hterm, hguard']
        rw [this]; exact h
  | connMade => exact h
  | pauseWriting => exact h
  | resumeWriting => exact h

/-- The queue-activity invariant is preserved by any sequence of atomic
operations. -/
theorem queueInvRun (s : TransportState) (acts : List Action)
    (h : s.message_queue ≠ [] → s.queue_nonempty = true) :
    (run s acts).message_queue ≠ [] → (run s acts).queue_nonempty = true := by
  induction acts generalizing s with
  | nil => exact h
  | cons a rest ih => exact ih (step s a) (queueInvStep s a h)

/-- Consecutive drain iterations empty the deque by popping from its right
end (head of our newest-first list): provided the gate is set, the signal
honest, and no entry stale, the pending entries are handed to the socket
exactly in list order — i.e. newest first, the reverse of their enqueue
order. -/
theorem drainsPopInListOrder (l : List MessageQueueEntry) (s : TransportState)
    (now : ℚ) (hterm : s.terminated = false) (hw : s.write_allowed = true)
    (hqueue : s.message_queue = l)
    (hinv : l ≠ [] → s.queue_nonempty = true)
    (hfresh : ∀ e ∈ l, now - (e.queued_on : ℚ) ≤ 60) :
    (run s (List.replicate l.length (Action.drain now))).sent
      = s.sent ++ l.map (fun e => (e.message, e.address)) := by
  induction l generalizing s with
  | nil => simp [run]
  | cons e rest ih =>
    have hq : s.queue_nonempty = true := hinv (by simp)
    have hfe : ¬ (60 < now - (e.queued_on : ℚ)) :=
      not_lt.mpr (hfresh e (List.mem_cons_self e rest))
    have hstep : step s (Action.drain now) = { s with message_queue := rest, sent := s.sent ++ [(e.message, e.address)] } := by
      simp [step, drain_step, hterm, hw, hq, hqueue, hfe]
    rw [List.length_cons, List.replicate_succ, run, hstep]
    rw [ih { s with message_queue := rest, sent := s.sent ++ [(e.message, e.address)] } hterm hw rfl
      (fun _ => hq) (fun e' he' => hfresh e' (List.mem_cons_of_mem e he'))]
    simp

/-!
## Claims
-/

/-- C1 counterexample.  The claim "entries are sent in strict enqueue order
(FIFO, oldest entry first)" is false: `send_message` appends at the deque's
right end and the drain loop pops with `deque.pop()`, which removes from
the right end as well.  Concretely, enqueue message `int 1` then `int 2`
(both at clock 0, gate set) and run two drain iterations: the socket
receives `int 2` first, not `int 1`. -/
theorem C1_fifo_counterexample :
    (run initState
      [Action.connMade, Action.send 0 (BValue.int 1) ⟨"h", 1⟩,
       Action.send 0 (BValue.int 2) ⟨"h", 1⟩,
       Action.drain 0, Action.drain 0]).sent
      = [(BValue.int 2, ⟨"h", 1⟩), (BValue.int 1, ⟨"h", 1⟩)] ∧
    (run initState
      [Action.connMade, Action.send 0 (BValue.int 1) ⟨"h", 1⟩,
       Action.send 0 (BValue.int 2) ⟨"h", 1⟩,
       Action.drain 0, Action.drain 0]).sent
      ≠ [(BValue.int 1, ⟨"h", 1⟩), (BValue.int 2, ⟨"h", 1⟩)] := by
  constructor <;>
    norm_num [run, step, send_message, drain_step, connection_made, pyInt,
      initState]

/-- C1 (amended): the drain loop pops and sends the MOST recently enqueued
pending entry first (LIFO, `deque.pop()` from the right end where
`send_message` appends), with no priority: a drain iteration on a
non-empty queue removes exactly the newest entry — the head of the
newest-first queue list — and hands exactly that entry's message and
address to the socket. -/
theorem C1_drain_pops_newest (s : TransportState) (now : ℚ)
    (e : MessageQueueEntry) (rest : List MessageQueueEntry)
    (hterm : s.terminated = false) (hw : s.write_allowed = true)
    (hq : s.queue_nonempty = true) (hqueue : s.message_queue = e :: rest)
    (hfresh : now - (e.queued_on : ℚ) ≤ 60) :
    (drain_step s now).sent = s.sent ++ [(e.message, e.address)] ∧
    (drain_step s now).message_queue = rest := by
  have hfe : ¬ (60 < now - (e.queued_on : ℚ)) := not_lt.mpr hfresh
  constructor <;> simp [drain_step, hterm, hw, hq, hqueue, hfe]

/-- C1 witness: the amended theorem applied to a concrete state whose
queue holds (newest first) `int 2` then `int 1`. -/
theorem C1_drain_pops_newest_witness :
    (⟨true, true, [⟨0, BValue.int 2, ⟨"h", 1⟩⟩, ⟨0, BValue.int 1, ⟨"h", 1⟩⟩],
        [], false⟩ : TransportState).terminated = false ∧
    ((0 : ℚ) - ((0 : Int) : ℚ) ≤ 60) ∧
    ((drain_step ⟨true, true,
        [⟨0, BValue.int 2, ⟨"h", 1⟩⟩, ⟨0, BValue.int 1, ⟨"h", 1⟩⟩],
        [], false⟩ 0).sent = [] ++ [(BValue.int 2, ⟨"h", 1⟩)] ∧
      (drain_step ⟨true, true,
        [⟨0, BValue.int 2, ⟨"h", 1⟩⟩, ⟨0, BValue.int 1, ⟨"h", 1⟩⟩],
        [], false⟩ 0).message_queue = [⟨0, BValue.int 1, ⟨"h", 1⟩⟩]) :=
  ⟨rfl, by norm_num,
    C1_drain_pops_newest _ 0 ⟨0, BValue.int 2, ⟨"h", 1⟩⟩
      [⟨0, BValue.int 1, ⟨"h", 1⟩⟩] rfl rfl rfl rfl (by norm_num)⟩

/-- C2 counterexample.  The claim "each iteration suspends until EITHER
write-readiness OR queue-activity holds (wait-for-any)" is false:
`asyncio.wait` is called with its default `return_when=ALL_COMPLETED`, so
the iteration needs BOTH.  Concretely, in a state where queue-activity is
set (and the queue holds an entry) but write-readiness is cleared, one of
the two signals holds, yet the drain iteration does not run — the state is
unchanged, nothing is popped. -/
theorem C2_wait_any_counterexample :
    ((⟨false, true, [⟨0, BValue.int 1, ⟨"h", 1⟩⟩], [], false⟩ :
        TransportState).write_allowed ||
      (⟨false, true, [⟨0, BValue.int 1, ⟨"h", 1⟩⟩], [], false⟩ :
        TransportState).queue_nonempty) = true ∧
    drain_step ⟨false, true, [⟨0, BValue.int 1, ⟨"h", 1⟩⟩], [], false⟩ 0
      = ⟨false, true, [⟨0, BValue.int 1, ⟨"h", 1⟩⟩], [], false⟩ := by
  constructor
  · rfl
  · simp [drain_step]

/-- C2 (amended): each iteration of the drain loop suspends until BOTH the
write-readiness signal and the queue-activity signal hold (`asyncio.wait`
with its default wait-for-all): while the loop has not returned, a drain
iteration changes the state (pops an entry, or clears the queue-activity
signal on an empty queue) if and only if both signals are set; if either
signal is unset the iteration is a no-op. -/
theorem C2_drain_waits_for_both (s : TransportState) (now : ℚ)
    (hterm : s.terminated = false) :
    drain_step s now ≠ s ↔
      (s.write_allowed = true ∧ s.queue_nonempty = true) := by
  constructor
  · intro hne
    by_contra hboth
    have hguard : (s.write_allowed && s.queue_nonempty) = false := by
      rcases Bool.eq_false_or_eq_true s.write_allowed with hw | hw <;>
        rcases Bool.eq_false_or_eq_true s.queue_nonempty with hq | hq <;>
        simp_all
    exact hne (by simp [drain_step, hterm, hguard])
  · rintro ⟨hw, hq⟩ heq
    rcases hqueue : s.message_queue with _ | ⟨e, rest⟩
    · have hthis : (drain_step s now).queue_nonempty = false := by
        simp [drain_step, hterm, hw, hq, hqueue]
      rw [heq, hq] at hthis
      exact absurd hthis (by simp)
    · by_cases hstale : 60 < now - (e.queued_on : ℚ)
      · have hthis : (drain_step s now).terminated = true := by
          simp [drain_step, hterm, hw, hq, hqueue, hstale]
        rw [heq, hterm] at hthis
        exact absurd hthis (by simp)
      · have hthis : (drain_step s now).sent
            = s.sent ++ [(e.message, e.address)] := by
          simp [drain_step, hterm, hw, hq, hqueue, hstale]
        rw [heq] at hthis
        have hlen := congrArg List.length hthis
        simp at hlen

/-- C2 witness: in the concrete state of the counterexample above, with
write-readiness cleared, the iteration is a no-op (the iff's right side is
false there because `write_allowed = false`). -/
theorem C2_drain_waits_for_both_witness :
    (⟨false, true, [⟨0, BValue.int 1, ⟨"h", 1⟩⟩], [], false⟩ :
        TransportState).terminated = false ∧
    (drain_step ⟨false, true, [⟨0, BValue.int 1, ⟨"h", 1⟩⟩], [], false⟩ 0
        ≠ ⟨false, true, [⟨0, BValue.int 1, ⟨"h", 1⟩⟩], [], false⟩ ↔
      ((⟨false, true, [⟨0, BValue.int 1, ⟨"h", 1⟩⟩], [], false⟩ :
          TransportState).write_allowed = true ∧
        (⟨false, true, [⟨0, BValue.int 1, ⟨"h", 1⟩⟩], [], false⟩ :
          TransportState).queue_nonempty = true)) :=
  ⟨rfl, C2_drain_waits_for_both _ 0 rfl⟩

/-- C4: when the drain loop pops an entry whose age `now - queued_on`
exceeds 60, that entry is dropped — removed from the queue, never handed to
the socket — and the coroutine `return`s; after that, over any sequence of
further operations, nothing is ever handed to the socket again and the
loop stays terminated. -/
theorem C4_stale_drop_terminates (s : TransportState) (now : ℚ)
    (e : MessageQueueEntry) (rest : List MessageQueueEntry)
    (acts : List Action)
    (hterm : s.terminated = false) (hw : s.write_allowed = true)
    (hq : s.queue_nonempty = true) (hqueue : s.message_queue = e :: rest)
    (hstale : 60 < now - (e.queued_on : ℚ)) :
    (drain_step s now).sent = s.sent ∧
    (drain_step s now).message_queue = rest ∧
    (drain_step s now).terminated = true ∧
    (run (drain_step s now) acts).sent = s.sent ∧
    (run (drain_step s now) acts).terminated = true := by
  have hd : drain_step s now
      = { s with message_queue := rest, terminated := true } := by
    simp [drain_step, hterm, hw, hq, hqueue, hstale]
  have hfrozen := terminatedFrozen (drain_step s now) acts (by rw [hd])
  refine ⟨by rw [hd], by rw [hd], by rw [hd], ?_, hfrozen.2⟩
  rw [hfrozen.1, hd]

/-- C4 witness: a single entry enqueued at clock 0 and popped at clock 61
is dropped and the loop terminates; a later enqueue and drain iteration
send nothing. -/
theorem C4_stale_drop_terminates_witness :
    (⟨true, true, [⟨0, BValue.int 1, ⟨"h", 1⟩⟩], [], false⟩ :
        TransportState).terminated = false ∧
    ((61 : ℚ) - ((0 : Int) : ℚ) > 60) ∧
    ((drain_step ⟨true, true, [⟨0, BValue.int 1, ⟨"h", 1⟩⟩], [], false⟩
        61).sent = [] ∧
      (drain_step ⟨true, true, [⟨0, BValue.int 1, ⟨"h", 1⟩⟩], [], false⟩
        61).message_queue = [] ∧
      (drain_step ⟨true, true, [⟨0, BValue.int 1, ⟨"h", 1⟩⟩], [], false⟩
        61).terminated = true ∧
      (run (drain_step ⟨true, true, [⟨0, BValue.int 1, ⟨"h", 1⟩⟩], [],
          false⟩ 61)
        [Action.send 61 (BValue.int 2) ⟨"h", 1⟩, Action.drain 61]).sent
        = [] ∧
      (run (drain_step ⟨true, true, [⟨0, BValue.int 1, ⟨"h", 1⟩⟩], [],
          false⟩ 61)
        [Action.send 61 (BValue.int 2) ⟨"h", 1⟩,
         Action.drain 61]).terminated = true) :=
  ⟨rfl, by norm_num,
    C4_stale_drop_terminates _ 61 ⟨0, BValue.int 1, ⟨"h", 1⟩⟩ []
      [Action.send 61 (BValue.int 2) ⟨"h", 1⟩, Action.drain 61]
      rfl rfl rfl rfl (by norm_num)⟩

/-- C3 counterexample.  The first half of the claim holds (a message
enqueued while the gate is cleared is not sent before `resume_writing`),
but the second half — "the sending order of the messages enqueued during
the paused interval is preserved once writing resumes" — is false: after
pausing, enqueueing `int 1` then `int 2`, and resuming, the two drain
iterations deliver `int 2` before `int 1` (the pop takes the deque's right
end), reversing the enqueue order.  The paused prefix itself sends
nothing. -/
theorem C3_order_counterexample :
    (run initState
      [Action.connMade, Action.pauseWriting,
       Action.send 0 (BValue.int 1) ⟨"h", 1⟩,
       Action.send 0 (BValue.int 2) ⟨"h", 1⟩, Action.drain 0]).sent = [] ∧
    (run initState
      [Action.connMade, Action.pauseWriting,
       Action.send 0 (BValue.int 1) ⟨"h", 1⟩,
       Action.send 0 (BValue.int 2) ⟨"h", 1⟩, Action.drain 0,
       Action.resumeWriting, Action.drain 5, Action.drain 5]).sent
      = [(BValue.int 2, ⟨"h", 1⟩), (BValue.int 1, ⟨"h", 1⟩)] ∧
    (run initState
      [Action.connMade, Action.pauseWriting,
       Action.send 0 (BValue.int 1) ⟨"h", 1⟩,
       Action.send 0 (BValue.int 2) ⟨"h", 1⟩, Action.drain 0,
       Action.resumeWriting, Action.drain 5, Action.drain 5]).sent
      ≠ [(BValue.int 1, ⟨"h", 1⟩), (BValue.int 2, ⟨"h", 1⟩)] := by
  refine ⟨?_, ?_, ?_⟩ <;>
    norm_num [run, step, send_message, drain_step, connection_made,
      pause_writing, resume_writing, pyInt, initState]

/-- C3 (amended): while the write-readiness gate is cleared, no operation
short of `resume_writing` (or `connection_made`) lets anything reach the
socket, so a message enqueued via `send_message` during the paused
interval is never sent before `resume_writing` is invoked; once writing
resumes, consecutive drain iterations send the entries still pending — in
particular those enqueued during the paused interval — in REVERSE enqueue
order (newest first), not in enqueue order. -/
theorem C3_paused_messages (s : TransportState) (acts : List Action)
    (now : ℚ)
    (hw : s.write_allowed = false) (hterm : s.terminated = false)
    (hinv : s.message_queue ≠ [] → s.queue_nonempty = true)
    (hacts : ∀ a ∈ acts, a ≠ Action.connMade ∧ a ≠ Action.resumeWriting)
    (hfresh : ∀ e ∈ (run s acts).message_queue,
      now - (e.queued_on : ℚ) ≤ 60) :
    (run s acts).sent = s.sent ∧
    (run (step (run s acts) Action.resumeWriting)
        (List.replicate (run s acts).message_queue.length
          (Action.drain now))).sent
      = s.sent ++ (run s acts).message_queue.map
          (fun e => (e.message, e.address)) := by
  obtain ⟨hw1, hsent1, hterm1⟩ := noWakeSentFrozen s acts hw hacts
  have hinv1 := queueInvRun s acts hinv
  refine ⟨hsent1, ?_⟩
  have hres : step (run s acts) Action.resumeWriting
      = { run s acts with write_allowed := true } := rfl
  rw [hres]
  have := drainsPopInListOrder (run s acts).message_queue
    { run s acts with write_allowed := true } now
    (by simpa using hterm1.trans hterm) rfl rfl
    (fun hne => by simpa using hinv1 hne)
    (fun e he => hfresh e he)
  simpa [hsent1] using this

/-- C3 witness: the amended theorem applied to a concrete paused state
(gate cleared, empty queue) followed by two enqueues and a stray drain
iteration, then resume: nothing was sent while paused, and the resumed
drains send the two messages newest first. -/
theorem C3_paused_messages_witness :
    (⟨false, false, [], [], false⟩ : TransportState).write_allowed
        = false ∧
    ((run (⟨false, false, [], [], false⟩ : TransportState)
        [Action.send 0 (BValue.int 1) ⟨"h", 1⟩,
         Action.send 0 (BValue.int 2) ⟨"h", 1⟩, Action.drain 0]).sent
        = [] ∧
      (run (step (run (⟨false, false, [], [], false⟩ : TransportState)
          [Action.send 0 (BValue.int 1) ⟨"h", 1⟩,
           Action.send 0 (BValue.int 2) ⟨"h", 1⟩, Action.drain 0])
          Action.resumeWriting)
        (List.replicate (run (⟨false, false, [], [], false⟩ :
            TransportState)
          [Action.send 0 (BValue.int 1) ⟨"h", 1⟩,
           Action.send 0 (BValue.int 2) ⟨"h", 1⟩,
           Action.drain 0]).message_queue.length
          (Action.drain 5))).sent
        = [] ++ (run (⟨false, false, [], [], false⟩ : TransportState)
            [Action.send 0 (BValue.int 1) ⟨"h", 1⟩,
             Action.send 0 (BValue.int 2) ⟨"h", 1⟩,
             Action.drain 0]).message_queue.map
            (fun e => (e.message, e.address))) :=
  ⟨rfl,
    C3_paused_messages ⟨false, false, [], [], false⟩
      [Action.send 0 (BValue.int 1) ⟨"h", 1⟩,
       Action.send 0 (BValue.int 2) ⟨"h", 1⟩, Action.drain 0] 5
      rfl rfl (by intro h; exact absurd rfl h)
      (by intro a ha; fin_cases ha <;> exact ⟨by simp, by simp⟩)
      (by
        intro e he
        norm_num [run, step, send_message, drain_step, pyInt] at he
        rcases he with he | he <;> rw [he] <;> norm_num)⟩

/-- C5: a datagram whose source address has port 0 is returned on
immediately: for EVERY decode function — i.e. without the decoder being
consulted at all — the handler is not invoked (`datagram_received` yields
`none`). -/
theorem C5_port_zero_ignored (decode : List Nat → Except Unit BValue)
    (data : List Nat) (address : Address) (h : address.port = 0) :
    datagram_received decode data address = none := by
  simp [datagram_received, h]

/-- C5 witness: a datagram from port 0 whose payload would decode to a
perfectly valid envelope is still ignored. -/
theorem C5_port_zero_ignored_witness :
    (⟨"203.0.113.5", 0⟩ : Address).port = 0 ∧
    datagram_received (fun _ => Except.ok (BValue.dict 7)) [1, 2, 3]
      ⟨"203.0.113.5", 0⟩ = none :=
  ⟨rfl, C5_port_zero_ignored (fun _ => Except.ok (BValue.dict 7)) [1, 2, 3]
    ⟨"203.0.113.5", 0⟩ rfl⟩

/-- C6 counterexample.  The claim quantifies over EVERY inbound datagram
and asserts that whenever the payload decodes to a well-formed envelope
(a dict), the decoded message and source address are forwarded to the
handler.  That is false for a datagram whose source port is 0: the port
filter returns first, so even a payload that decodes to a dict is never
forwarded. -/
theorem C6_port_zero_envelope_counterexample :
    ((fun _ : List Nat => Except.ok (BValue.dict 7)) [1]
        : Except Unit BValue) = Except.ok (BValue.dict 7) ∧
    (BValue.dict 7).isDict = true ∧
    datagram_received (fun _ => Except.ok (BValue.dict 7)) [1]
      ⟨"203.0.113.5", 0⟩ = none :=
  ⟨rfl, rfl, rfl⟩

/-- C6 (amended): for every inbound datagram whose source port is not 0,
if decoding the payload fails (raises `DecodeError`), or the decoded value
is not a dict, the handler is not invoked — and `datagram_received` is a
total function, so no exception escapes it; otherwise the decoded message
and the source address are forwarded to the handler. -/
theorem C6_inbound_dispatch (decode : List Nat → Except Unit BValue)
    (data : List Nat) (address : Address) (h : address.port ≠ 0) :
    ((∀ m, decode data = Except.ok m → m.isDict = false) →
      datagram_received decode data address = none) ∧
    (∀ m, decode data = Except.ok m → m.isDict = true →
      datagram_received decode data address = some (m, address)) := by
  constructor
  · intro hnd
    rcases hdec : decode data with err | m
    · simp [datagram_received, h, hdec]
    · simp [datagram_received, h, hdec, hnd m hdec]
  · intro m hdec hdict
    simp [datagram_received, h, hdec, hdict]

/-- C6 witness: with source port 6881, a payload decoding to a non-dict is
dropped and a payload decoding to a dict is forwarded together with the
source address. -/
theorem C6_inbound_dispatch_witness :
    ((⟨"203.0.113.5", 6881⟩ : Address).port ≠ 0 ∧
      ((∀ m : BValue, ((fun _ : List Nat => Except.ok (BValue.int 3)) [1]
            : Except Unit BValue) = Except.ok m → m.isDict = false) →
        datagram_received (fun _ => Except.ok (BValue.int 3)) [1]
          ⟨"203.0.113.5", 6881⟩ = none)) ∧
    (∀ m : BValue, ((fun _ : List Nat => Except.ok (BValue.dict 7)) [1]
        : Except Unit BValue) = Except.ok m → m.isDict = true →
      datagram_received (fun _ => Except.ok (BValue.dict 7)) [1]
        ⟨"203.0.113.5", 6881⟩ = some (m, ⟨"203.0.113.5", 6881⟩)) :=
  ⟨⟨by norm_num,
    (C6_inbound_dispatch (fun _ => Except.ok (BValue.int 3)) [1]
      ⟨"203.0.113.5", 6881⟩ (by norm_num)).1⟩,
    (C6_inbound_dispatch (fun _ => Except.ok (BValue.dict 7)) [1]
      ⟨"203.0.113.5", 6881⟩ (by norm_num)).2⟩

/-- C7 counterexample.  The claim says the constructed `QueueEntry`
carries "the current monotonic time"; in the source the entry carries
`int(time.monotonic())`, the reading truncated to a whole integer.  At
clock reading 1/2 the enqueued entry's `queued_on` is 0, which does not
equal the current monotonic time 1/2. -/
theorem C7_timestamp_truncated_counterexample :
    (send_message initState (1/2) (BValue.int 1)
        ⟨"h", 1⟩).message_queue.map (fun e => (e.queued_on : ℚ)) = [0] ∧
    ((0 : ℚ) ≠ 1/2) := by
  constructor
  · norm_num [send_message, initState, pyInt]
  · norm_num

/-- C7 (amended): `send_message(message, address)` never blocks and never
fails for any inputs — it is a total function of the state, the clock
reading and the two (unvalidated) arguments: it constructs a `QueueEntry`
carrying the current monotonic time truncated to a whole integer
(`int(time.monotonic())`), appends it to the tail of the send queue (the
deque's right end — the head of the newest-first list), sets the
queue-activity signal, and touches nothing else: gate, socket history and
termination flag are unchanged. -/
theorem C7_send_message_spec (s : TransportState) (now : ℚ)
    (message : BValue) (address : Address) :
    (send_message s now message address).message_queue
        = ⟨pyInt now, message, address⟩ :: s.message_queue ∧
    (send_message s now message address).queue_nonempty = true ∧
    (send_message s now message address).sent = s.sent ∧
    (send_message s now message address).write_allowed
        = s.write_allowed ∧
    (send_message s now message address).terminated = s.terminated :=
  ⟨rfl, rfl, rfl, rfl, rfl⟩

/-- C8: `connection_lost None` and `connection_lost (some error)` both
terminate the process with exit status 1 — non-zero — and both log at
`CRITICAL` (= `FATAL`, the highest standard severity); the two runs differ
only in the message of the log record. -/
theorem C8_connection_lost_fatal :
    ∀ exc : Option String,
      (connection_lost exc).2 = 1 ∧ (connection_lost exc).2 ≠ 0 ∧
      (connection_lost exc).1.level = CRITICAL ∧
      (connection_lost exc).2 = (connection_lost none).2 ∧
      (connection_lost exc).1.level = (connection_lost none).1.level := by
  intro exc
  cases exc <;> exact ⟨rfl, Nat.one_ne_zero, rfl, rfl, rfl⟩

/-- C9: the queue-activity invariant — whenever the send queue is
non-empty the queue-activity signal is set (the signal may be spuriously
set on an empty queue, but never unset on a non-empty one) — is preserved
by every atomic operation of the transport: `send_message`, each
drain-loop iteration, and each of the socket callbacks
(`connection_made`, `pause_writing`, `resume_writing`; the remaining
callbacks `datagram_received`, `error_received` and `connection_lost`
touch neither the queue nor the signal). -/
theorem C9_queue_signal_invariant (s : TransportState) (a : Action)
    (h : s.message_queue ≠ [] → s.queue_nonempty = true) :
    (step s a).message_queue ≠ [] → (step s a).queue_nonempty = true :=
  queueInvStep s a h

/-- C9 witness: the invariant survives a drain iteration from a state with
one queued entry and the signal set. -/
theorem C9_queue_signal_invariant_witness :
    ((⟨true, true, [⟨0, BValue.int 1, ⟨"h", 1⟩⟩], [], false⟩ :
        TransportState).message_queue ≠ [] →
      (⟨true, true, [⟨0, BValue.int 1, ⟨"h", 1⟩⟩], [], false⟩ :
        TransportState).queue_nonempty = true) ∧
    ((step ⟨true, true, [⟨0, BValue.int 1, ⟨"h", 1⟩⟩], [], false⟩
        (Action.drain 0)).message_queue ≠ [] →
      (step ⟨true, true, [⟨0, BValue.int 1, ⟨"h", 1⟩⟩], [], false⟩
        (Action.drain 0)).queue_nonempty = true) :=
  ⟨fun _ => rfl,
    C9_queue_signal_invariant ⟨true, true, [⟨0, BValue.int 1, ⟨"h", 1⟩⟩],
      [], false⟩ (Action.drain 0) (fun _ => rfl)⟩

/-- C10: the enqueue timestamp is the truncated clock (`pyInt`, i.e.
Python's `int()`), the age the drain loop computes is the untruncated
clock minus that integer, so the computed age is at least the true
elapsed time and exceeds it by strictly less than one time unit; and
there is an execution — enqueue at clock 1/2, pop at clock 241/4 — whose
true age 239/4 is greater than 59 and at most 60, yet the drain loop
already treats the entry as exceeding the 60-unit threshold: the entry is
dropped and the loop terminates. -/
theorem C10_truncated_age_bounds (s : TransportState) (t now : ℚ)
    (message : BValue) (address : Address)
    (ht : 0 ≤ t) (_hle : t ≤ now) :
    ((send_message s t message address).message_queue.head?.map
        (fun e => e.queued_on)) = some (pyInt t) ∧
    now - t ≤ now - ((pyInt t : Int) : ℚ) ∧
    (now - ((pyInt t : Int) : ℚ)) - (now - t) < 1 ∧
    (∃ t2 now2 : ℚ, 0 ≤ t2 ∧ 59 < now2 - t2 ∧ now2 - t2 ≤ 60 ∧
      (drain_step (connection_made
          (send_message initState t2 (BValue.int 1) ⟨"h", 1⟩))
        now2).terminated = true ∧
      (drain_step (connection_made
          (send_message initState t2 (BValue.int 1) ⟨"h", 1⟩))
        now2).sent = []) := by
  have hfloor : (pyInt t : ℚ) = (⌊t⌋ : ℚ) := by simp [pyInt, ht]
  refine ⟨rfl, ?_, ?_, ⟨1/2, 241/4, by norm_num, by norm_num, by norm_num,
    ?_, ?_⟩⟩
  · rw [hfloor]
    have := Int.floor_le t
    linarith
  · rw [hfloor]
    have := Int.lt_floor_add_one t
    linarith
  · norm_num [drain_step, connection_made, send_message, initState, pyInt]
  · norm_num [drain_step, connection_made, send_message, initState, pyInt]

/-- C10 witness: the bounds at enqueue clock 1/2, pop clock 1. -/
theorem C10_truncated_age_bounds_witness :
    ((0 : ℚ) ≤ 1/2 ∧ (1/2 : ℚ) ≤ 1) ∧
    (((send_message initState (1/2) (BValue.int 1)
        ⟨"h", 1⟩).message_queue.head?.map (fun e => e.queued_on))
        = some (pyInt (1/2)) ∧
      (1 : ℚ) - 1/2 ≤ 1 - ((pyInt (1/2) : Int) : ℚ) ∧
      ((1 : ℚ) - ((pyInt (1/2) : Int) : ℚ)) - (1 - 1/2) < 1 ∧
      (∃ t2 now2 : ℚ, 0 ≤ t2 ∧ 59 < now2 - t2 ∧ now2 - t2 ≤ 60 ∧
        (drain_step (connection_made
            (send_message initState t2 (BValue.int 1) ⟨"h", 1⟩))
          now2).terminated = true ∧
        (drain_step (connection_made
            (send_message initState t2 (BValue.int 1) ⟨"h", 1⟩))
          now2).sent = [])) :=
  ⟨⟨by norm_num, by norm_num⟩,
    C10_truncated_age_bounds initState (1/2) 1 (BValue.int 1) ⟨"h", 1⟩
      (by norm_num) (by norm_num)⟩

end Mainline
